import Mathlib

/-!
A shallow embedding of the PPG analysis dispatcher `ppg_analyze` from
`neurokit2/ppg/ppg_analyze.py`, together with proofs about its routing
behaviour.

The dispatcher reads only structural metadata of its `data` argument: column
names, row counts, and the values of a `"Label"` column.  The two feature
extractors `ppg_eventrelated` and `ppg_intervalrelated` are external
collaborators whose internals are out of scope; the embedding records which
extractor the dispatcher invokes and with which arguments (`Call`), or which
Python exception escapes (`PyError`).  Since the dispatcher returns the
invoked collaborator result unchanged, the `Call` value is the observable
outcome of the dispatcher itself.
-/

namespace NeuroKit

/-- A pandas `DataFrame`, reduced to the parts `ppg_analyze` reads: the column
names (`df.columns.values`) and the rows (for `len(df)` and for the values of
a named column).  Cell values are modelled as strings. -/
structure DataFrame where
  columns : List String
  rows : List (List String)
  deriving DecidableEq

/-- Python string membership `sub in s`: `sub` occurs as a contiguous
substring of `s`. -/
def pyIn (sub s : String) : Bool :=
  (List.range (s.data.length + 1)).any (fun k => sub.data.isPrefixOf (s.data.drop k))

/-- Python `str.lower()`: lowercase every character. -/
def pyLower (s : String) : String :=
  String.mk (s.data.map Char.toLower)

/-- `df[c]`: the values of column `c` in row order (empty when the column is
absent; the dispatcher only reads a column after checking its presence). -/
def DataFrame.col (df : DataFrame) (c : String) : List String :=
  match df.columns.findIdx? (fun x => x == c) with
  | some k => df.rows.map (fun r => r.getD k "")
  | none => []

/-- The maximum multiplicity of any element of the list: the head value of
`series.value_counts()` on a nonempty series.  The actual `value_counts()[0]`
lookup, which raises on an empty series, is `value_counts_first` below. -/
def value_counts_top (l : List String) : Nat :=
  (l.map (fun v => l.count v)).foldr max 0

/-- The `data` argument of `ppg_analyze`: a `dict` of tables (insertion
ordered, as Python dicts are), a single `pd.DataFrame`, or any other value,
which matches neither `isinstance` test of the source. -/
inductive Data where
  | dict (members : List (String × DataFrame)) : Data
  | frame (df : DataFrame) : Data
  | other : Data
  deriving DecidableEq

/-- A Python exception escaping `ppg_analyze`: the explicit `ValueError` of
the sanity check, or a `NameError` for a local variable read before any
assignment to it. -/
inductive PyError where
  | valueError (msg : String) : PyError
  | nameError (var : String) : PyError
  | indexError (msg : String) : PyError
  deriving DecidableEq

/-- `series.value_counts()[0]`: position 0 of the descending value counts,
that is the multiplicity of the most frequent value.  On an empty series the
counts are empty and the lookup at 0 raises (an IndexError under the
positional fallback of older pandas, a KeyError in newer pandas); either way
the dispatcher itself raises instead of routing. -/
def value_counts_first (l : List String) : Except PyError Nat :=
  if l.isEmpty then Except.error (.indexError "index 0 is out of bounds")
  else Except.ok (value_counts_top l)

/-- A call to one of the two feature-extraction collaborators, with the
arguments the dispatcher passes. -/
inductive Call where
  | ppg_eventrelated (data : Data) : Call
  | ppg_intervalrelated (data : Data) (sampling_rate : ℚ) : Call
  deriving DecidableEq

/-- The `data` argument a call passes on to its extractor. -/
def Call.dataArg : Call → Data
  | .ppg_eventrelated d => d
  | .ppg_intervalrelated d _ => d

/-- The message of the `ValueError` raised on a structural mismatch (the two
adjacent string literals of the source concatenate without a space). -/
def errMsg : String :=
  "NeuroKit error: ppg_analyze(): Wrong input or method,we couldn\x27t extract epochs features."

/-- The method names of the event-related group (after lowercasing). -/
def eventMethods : List String := ["event-related", "event", "epoch"]

/-- The method names of the interval-related group (after lowercasing). -/
def intervalMethods : List String := ["interval-related", "interval", "resting-state"]

/-- The value of `colnames` after the sanity-check loop of the event-related
branch: for a dict, `for i in data: colnames = data[i].columns.values` leaves
the columns of the member iterated last (`none` when the dict is empty and the
variable is never assigned); for a frame, `colnames = data.columns.values`;
for any other value the variable is never assigned. -/
def colnamesOf : Data → Option (List String)
  | .dict members => (members.map (fun kv => kv.2.columns)).getLast?
  | .frame df => some df.columns
  | .other => none

/-- Lines 75-89 of the source: the event-related branch.  Reading an
unassigned `colnames` raises `NameError`; otherwise the branch raises the
sanity-check `ValueError` when no column name contains `"Label"`, and calls
`ppg_eventrelated(data)` when one does. -/
def eventBranch (data : Data) : Except PyError Call :=
  match colnamesOf data with
  | none => Except.error (.nameError "colnames")
  | some colnames =>
    if (colnames.filter (fun i => pyIn "Label" i)).length = 0 then
      Except.error (.valueError errMsg)
    else
      Except.ok (.ppg_eventrelated data)

/-- Lines 96-115 of the source: the auto branch.  For a dict,
`for i in data: duration = len(data[i]) / sampling_rate` leaves the duration
of the member iterated last (an empty dict leaves `duration` unassigned, so
reading it raises `NameError`); for a frame with a column named exactly
`"Label"`, the duration comes from `data["Label"].value_counts()[0]`, which
raises on a zero-row table, else from `len(data)`.  Data of any other type
skips both branches and reaches `return features` with `features`
unassigned. -/
def autoBranch (data : Data) (sampling_rate : ℚ) : Except PyError Call :=
  match data with
  | .dict members =>
    match (members.map (fun kv => ((kv.2.rows.length : ℚ) / sampling_rate))).getLast? with
    | none => Except.error (.nameError "duration")
    | some duration =>
      if duration ≥ 10 then
        Except.ok (.ppg_intervalrelated (.dict members) sampling_rate)
      else
        Except.ok (.ppg_eventrelated (.dict members))
  | .frame df =>
    if "Label" ∈ df.columns then
      match value_counts_first (df.col "Label") with
      | Except.error e => Except.error e
      | Except.ok epoch_len =>
        if ((epoch_len : ℚ) / sampling_rate) ≥ 10 then
          Except.ok (.ppg_intervalrelated (.frame df) sampling_rate)
        else
          Except.ok (.ppg_eventrelated (.frame df))
    else
      if ((df.rows.length : ℚ) / sampling_rate) ≥ 10 then
        Except.ok (.ppg_intervalrelated (.frame df) sampling_rate)
      else
        Except.ok (.ppg_eventrelated (.frame df))
  | .other => Except.error (.nameError "features")

/-- The body of `ppg_analyze` after `method = method.lower()`: the three
method groups in source order; any other method skips every branch and reaches
`return features` with `features` unassigned. -/
def ppg_analyze_body (data : Data) (sampling_rate : ℚ) (method : String) :
    Except PyError Call :=
  if method ∈ eventMethods then
    eventBranch data
  else if method ∈ intervalMethods then
    Except.ok (.ppg_intervalrelated data sampling_rate)
  else if method = "auto" then
    autoBranch data sampling_rate
  else
    Except.error (.nameError "features")

/-- `ppg_analyze(data, sampling_rate, method)`: lowercase `method`, then
dispatch. -/
def ppg_analyze (data : Data) (sampling_rate : ℚ) (method : String) :
    Except PyError Call :=
  ppg_analyze_body data sampling_rate (pyLower method)

/-- At least one column name contains the marker substring `"Label"`. -/
def hasLabelMarker (cols : List String) : Bool :=
  cols.any (fun c => pyIn "Label" c)

/-- Inputs of the shape event-related mode is documented for: a single table
carrying a column whose name contains `"Label"`, or a nonempty mapping all of
whose members carry such a column. -/
def epochedWithLabel : Data → Bool
  | .frame df => hasLabelMarker df.columns
  | .dict ms => !ms.isEmpty && ms.all (fun kv => hasLabelMarker kv.2.columns)
  | .other => false

/-- A single table, or a nonempty mapping, none of whose column names contains
`"Label"`. -/
def labelFree : Data → Bool
  | .frame df => !hasLabelMarker df.columns
  | .dict ms => !ms.isEmpty && ms.all (fun kv => !hasLabelMarker kv.2.columns)
  | .other => false

/-- A processed-signal table without any label column. -/
def plainFrame : DataFrame :=
  ⟨["PPG_Clean", "PPG_Rate"], [["1", "70"], ["2", "71"]]⟩

/-- An epochs table with a `"Label"` column. -/
def labeledFrame : DataFrame :=
  ⟨["Label", "Signal"], [["1", "5"], ["1", "6"], ["2", "7"]]⟩

/-- A list filters to length zero exactly when no element satisfies the
predicate. -/
theorem filter_length_eq_zero {cols : List String} {p : String → Bool}
    (h : cols.any p = false) : (cols.filter p).length = 0 := by
  simp only [List.length_eq_zero, List.filter_eq_nil_iff]
  intro a ha
  simp only [List.any_eq_false] at h
  simpa using h a ha

/-- A list with a satisfying element does not filter to length zero. -/
theorem filter_length_ne_zero {cols : List String} {p : String → Bool}
    (h : cols.any p = true) : (cols.filter p).length ≠ 0 := by
  simp only [List.any_eq_true] at h
  rcases h with ⟨c, hc, hpc⟩
  simp only [ne_eq, List.length_eq_zero, List.filter_eq_nil_iff]
  intro hall
  exact hall c hc hpc

/-- The interval-related method names are disjoint from the event-related
ones, so the second branch of the source is reachable. -/
theorem interval_not_event {m : String} (hm : m ∈ intervalMethods) :
    m ∉ eventMethods := by
  fin_cases hm <;> decide

/-- An event-group method runs the event-related branch. -/
theorem body_event {m : String} (data : Data) (sr : ℚ) (hm : m ∈ eventMethods) :
    ppg_analyze_body data sr m = eventBranch data := by
  unfold ppg_analyze_body
  rw [if_pos hm]

/-- An interval-group method delegates directly, whatever the data. -/
theorem body_interval {m : String} (data : Data) (sr : ℚ) (hm : m ∈ intervalMethods) :
    ppg_analyze_body data sr m = Except.ok (.ppg_intervalrelated data sr) := by
  unfold ppg_analyze_body
  rw [if_neg (interval_not_event hm), if_pos hm]

/-- The method `"auto"` runs the auto branch. -/
theorem body_auto (data : Data) (sr : ℚ) :
    ppg_analyze_body data sr "auto" = autoBranch data sr := by
  unfold ppg_analyze_body
  rw [if_neg (by decide), if_neg (by decide), if_pos rfl]

/-- Any method outside the three groups reaches `return features` with
`features` unassigned. -/
theorem body_unrecognized {m : String} (data : Data) (sr : ℚ)
    (h1 : m ∉ eventMethods) (h2 : m ∉ intervalMethods) (h3 : m ≠ "auto") :
    ppg_analyze_body data sr m = Except.error (.nameError "features") := by
  unfold ppg_analyze_body
  rw [if_neg h1, if_neg h2, if_neg h3]

/-- When the colnames variable is assigned, the event-related branch reduces
to the sanity check on those column names. -/
theorem eventBranch_eq_of_colnames {data : Data} {cols : List String}
    (h : colnamesOf data = some cols) :
    eventBranch data =
      (if (cols.filter (fun i => pyIn "Label" i)).length = 0 then
        Except.error (.valueError errMsg)
      else
        Except.ok (.ppg_eventrelated data)) := by
  unfold eventBranch
  rw [h]

/-- For a mapping with a last member, the colnames variable ends up holding
that last member's columns. -/
theorem colnamesOf_dict_last {ms : List (String × DataFrame)}
    {kv : String × DataFrame} (hlast : ms.getLast? = some kv) :
    colnamesOf (.dict ms) = some kv.2.columns := by
  show (ms.map (fun kv => kv.2.columns)).getLast? = some kv.2.columns
  rw [List.getLast?_map, hlast, Option.map_some']

/-- For a single table, the colnames variable holds its columns. -/
theorem colnamesOf_frame (df : DataFrame) :
    colnamesOf (.frame df) = some df.columns := rfl

/-- Whenever the body delegates, the data handed to the extractor is the
input itself, unchanged. -/
theorem body_dataArg {data : Data} {sr : ℚ} {m : String} {c : Call}
    (h : ppg_analyze_body data sr m = Except.ok c) : c.dataArg = data := by
  unfold ppg_analyze_body eventBranch autoBranch at h
  repeat' split at h
  all_goals (cases h)
  all_goals rfl

/-- Every image of a list element is bounded by the folded maximum. -/
theorem le_foldr_max (f : String → Nat) (l : List String) (v : String)
    (hv : v ∈ l) : f v ≤ (l.map f).foldr max 0 := by
  induction l with
  | nil => cases hv
  | cons a t ih =>
    rcases List.mem_cons.mp hv with rfl | hv'
    · exact le_max_left _ _
    · exact le_trans (ih hv') (le_max_right _ _)

/-- The folded maximum over a nonempty list is attained at a list element. -/
theorem foldr_max_attained (f : String → Nat) (a : String) (t : List String) :
    ∃ v ∈ a :: t, ((a :: t).map f).foldr max 0 = f v := by
  induction t generalizing a with
  | nil => exact ⟨a, by simp, by simp⟩
  | cons b u ih =>
    rcases ih b with ⟨v, hv, hmax⟩
    rcases le_or_lt (f a) (((b :: u).map f).foldr max 0) with hc | hc
    · refine ⟨v, List.mem_cons_of_mem _ hv, ?_⟩
      show max (f a) (((b :: u).map f).foldr max 0) = f v
      rw [max_eq_right hc, hmax]
    · refine ⟨a, List.mem_cons_self a _, ?_⟩
      show max (f a) (((b :: u).map f).foldr max 0) = f a
      rw [max_eq_left (le_of_lt hc)]

/-- On a nonempty series, the modelled `value_counts()[0]` is exactly the
count of a most frequent value: it is the count of some element and bounds the
count of every element. -/
theorem value_counts_top_spec (a : String) (t : List String) :
    ∃ v ∈ a :: t, value_counts_top (a :: t) = (a :: t).count v ∧
      ∀ w ∈ a :: t, (a :: t).count w ≤ (a :: t).count v := by
  rcases foldr_max_attained (fun w => (a :: t).count w) a t with ⟨v, hv, hmax⟩
  refine ⟨v, hv, hmax, ?_⟩
  intro w hw
  rw [← hmax]
  exact le_foldr_max (fun x => (a :: t).count x) (a :: t) w hw

/-- A present column of a table with at least one row yields a nonempty
series of values. -/
theorem col_isEmpty_false {df : DataFrame} {c : String} (hc : c ∈ df.columns)
    (hr : df.rows ≠ []) : (df.col c).isEmpty = false := by
  unfold DataFrame.col
  rcases hk : df.columns.findIdx? (fun x => x == c) with _ | k
  · rw [List.findIdx?_eq_none_iff] at hk
    exact absurd (hk c hc) (by simp)
  · rcases hrow : df.rows with _ | ⟨r, rs⟩
    · exact absurd hrow hr
    · rfl

/-- For a nonempty series, the modelled `value_counts()[0]` lookup succeeds
and returns the top multiplicity. -/
theorem value_counts_first_of_ne_empty {l : List String}
    (h : l.isEmpty = false) :
    value_counts_first l = Except.ok (value_counts_top l) := by
  unfold value_counts_first
  rw [if_neg (by simp [h])]

/-- C1: for a single-table input with no column named `"Label"`, method
`"auto"` computes the duration as the total row count divided by the sampling
rate and delegates to `ppg_intervalrelated(data, sampling_rate)` exactly when
that duration reaches the fixed threshold 10 seconds, otherwise to
`ppg_eventrelated(data)`. -/
theorem C1_auto_frame_without_label (df : DataFrame) (sr : ℚ)
    (hlab : "Label" ∉ df.columns) (hsr : 0 < sr) :
    ppg_analyze (.frame df) sr "auto" =
      (if ((df.rows.length : ℚ) / sr ≥ 10) then
        Except.ok (.ppg_intervalrelated (.frame df) sr)
      else
        Except.ok (.ppg_eventrelated (.frame df))) := by
  show ppg_analyze_body (.frame df) sr (pyLower "auto") = _
  rw [show pyLower "auto" = "auto" from rfl, body_auto]
  simp only [autoBranch]
  rw [if_neg hlab]

/-- C3: for every input and sampling rate, a method of the interval-related
group (after lowercasing) returns exactly the
`ppg_intervalrelated(data, sampling_rate)` call, with no structural pre-check
on the data and no post-processing. -/
theorem C3_interval_delegates (data : Data) (sr : ℚ) (method : String)
    (hm : pyLower method ∈ intervalMethods) :
    ppg_analyze data sr method = Except.ok (.ppg_intervalrelated data sr) :=
  body_interval data sr hm

/-- C4: for an input of the documented epoched shape, a single table with a
column name containing `"Label"` or a nonempty mapping all of whose members
have one, a method of the event-related group returns exactly the
`ppg_eventrelated(data)` call; the sampling rate is not among the call
arguments and, being universally quantified on the left and absent on the
right, cannot influence the result. -/
theorem C4_event_with_label (data : Data) (sr : ℚ) (method : String)
    (hm : pyLower method ∈ eventMethods) (hd : epochedWithLabel data = true) :
    ppg_analyze data sr method = Except.ok (.ppg_eventrelated data) := by
  show ppg_analyze_body data sr (pyLower method) = _
  rw [body_event data sr hm]
  cases data with
  | frame df =>
    simp only [epochedWithLabel] at hd
    rw [eventBranch_eq_of_colnames (colnamesOf_frame df),
      if_neg (filter_length_ne_zero hd)]
  | dict ms =>
    simp only [epochedWithLabel, Bool.and_eq_true, List.all_eq_true] at hd
    obtain ⟨hne, hall⟩ := hd
    have hne' : ms ≠ [] := by simpa using hne
    have hlast : ms.getLast? = some (ms.getLast hne') := List.getLast?_eq_getLast ms hne'
    rw [eventBranch_eq_of_colnames (colnamesOf_dict_last hlast),
      if_neg (filter_length_ne_zero (hall _ (List.getLast_mem hne')))]
  | other => simp [epochedWithLabel] at hd

/-- C5, counterexample: a zero-row table with a `"Label"` column satisfies
the claim premise, and the claim then demands routing to `ppg_eventrelated`
(the most frequent label's row count is 0, so the duration is under 10); the
program instead raises inside the dispatcher, because
`data["Label"].value_counts()` is empty and the lookup at position 0 fails. -/
theorem C5_counterexample_empty_rows :
    ppg_analyze (.frame ⟨["Label"], []⟩) 1000 "auto" =
      Except.error (.indexError "index 0 is out of bounds") ∧
    ppg_analyze (.frame ⟨["Label"], []⟩) 1000 "auto" ≠
      Except.ok (.ppg_eventrelated (.frame ⟨["Label"], []⟩)) := by
  have h1 : ppg_analyze (.frame ⟨["Label"], []⟩) 1000 "auto" =
      Except.error (.indexError "index 0 is out of bounds") := rfl
  refine ⟨h1, ?_⟩
  rw [h1]
  simp

/-- C5, amended to tables with at least one row: for a single-table input
with a column named exactly `"Label"` and a nonempty body, method `"auto"`
computes the duration as the row count of the most frequent label value,
`data["Label"].value_counts()[0]`, divided by the sampling rate, and routes
by the same fixed threshold of 10 seconds; on a zero-row table the lookup
raises instead. -/
theorem C5_auto_frame_with_label (df : DataFrame) (sr : ℚ)
    (hlab : "Label" ∈ df.columns) (hrows : df.rows ≠ []) (hsr : 0 < sr) :
    ppg_analyze (.frame df) sr "auto" =
      (if ((value_counts_top (df.col "Label") : ℚ) / sr ≥ 10) then
        Except.ok (.ppg_intervalrelated (.frame df) sr)
      else
        Except.ok (.ppg_eventrelated (.frame df))) := by
  show ppg_analyze_body (.frame df) sr (pyLower "auto") = _
  rw [show pyLower "auto" = "auto" from rfl, body_auto]
  simp only [autoBranch]
  rw [if_pos hlab,
    value_counts_first_of_ne_empty (col_isEmpty_false hlab hrows)]

/-- C6: for a mapping input, method `"auto"` decides the routing of the whole
mapping from the duration of the member iterated last alone, delegating to
`ppg_intervalrelated` exactly when that duration reaches 10 seconds, whatever
the other members hold. -/
theorem C6_auto_dict_last_member (ms : List (String × DataFrame))
    (kv : String × DataFrame) (sr : ℚ) (hlast : ms.getLast? = some kv)
    (hsr : 0 < sr) :
    ppg_analyze (.dict ms) sr "auto" =
      (if ((kv.2.rows.length : ℚ) / sr ≥ 10) then
        Except.ok (.ppg_intervalrelated (.dict ms) sr)
      else
        Except.ok (.ppg_eventrelated (.dict ms))) := by
  show ppg_analyze_body (.dict ms) sr (pyLower "auto") = _
  rw [show pyLower "auto" = "auto" from rfl, body_auto]
  simp only [autoBranch]
  rw [List.getLast?_map, hlast, Option.map_some']

/-- C7: a method outside all three recognized groups (after lowercasing) skips
every branch, invokes neither extractor, and reaches `return features` with
the local variable `features` never assigned. -/
theorem C7_unrecognized_method (data : Data) (sr : ℚ) (method : String)
    (h1 : pyLower method ∉ eventMethods) (h2 : pyLower method ∉ intervalMethods)
    (h3 : pyLower method ≠ "auto") :
    ppg_analyze data sr method = Except.error (.nameError "features") :=
  body_unrecognized data sr h1 h2 h3

/-- C8: the dispatcher never mutates its input.  The embedding is a pure
function of the input, and whenever it delegates, the `data` argument handed
to the extractor is the very input value, structurally unchanged; the
dispatcher itself only reads metadata to choose the route. -/
theorem C8_never_mutates (data : Data) (sr : ℚ) (method : String) :
    (match ppg_analyze data sr method with
     | Except.ok c => Call.dataArg c = data
     | Except.error _ => True) := by
  cases h : ppg_analyze data sr method with
  | error e => trivial
  | ok c => exact body_dataArg h

/-- C9: in event-related mode the structural check inspects only the member
iterated last: a mapping routes to `ppg_eventrelated` exactly when the last
member has a column name containing `"Label"`, whatever columns the other
members have; otherwise it raises the structural-mismatch `ValueError`. -/
theorem C9_event_dict_checks_last_only (ms : List (String × DataFrame))
    (kv : String × DataFrame) (sr : ℚ) (hlast : ms.getLast? = some kv) :
    ppg_analyze (.dict ms) sr "event-related" =
      (if hasLabelMarker kv.2.columns then
        Except.ok (.ppg_eventrelated (.dict ms))
      else
        Except.error (.valueError errMsg)) := by
  show ppg_analyze_body (.dict ms) sr (pyLower "event-related") = _
  rw [show pyLower "event-related" = "event-related" from rfl,
    body_event _ _ (by decide)]
  rw [eventBranch_eq_of_colnames (colnamesOf_dict_last hlast)]
  by_cases hL : hasLabelMarker kv.2.columns = true
  · rw [if_neg (filter_length_ne_zero hL), if_pos hL]
  · simp only [Bool.not_eq_true] at hL
    rw [if_pos (filter_length_eq_zero hL), if_neg (by simp [hL])]

/-- C10: for an empty mapping, or for data that is neither a mapping nor a
single table, an event-group method raises the unbound-variable `NameError`
for `colnames` rather than the structural-mismatch `ValueError`; in auto mode
such data likewise leaves a variable unassigned (`duration` for the empty
mapping, `features` otherwise). -/
theorem C10_unbound_variable (data : Data) (sr : ℚ) (method : String)
    (hd : data = Data.dict [] ∨ data = Data.other)
    (hm : pyLower method ∈ eventMethods) :
    ppg_analyze data sr method = Except.error (.nameError "colnames") ∧
    ppg_analyze data sr "auto" =
      Except.error
        (.nameError (if data = Data.other then "features" else "duration")) := by
  rcases hd with rfl | rfl
  · refine ⟨?_, ?_⟩
    · show ppg_analyze_body _ _ (pyLower method) = _
      rw [body_event _ _ hm]
      rfl
    · show ppg_analyze_body _ _ (pyLower "auto") = _
      rw [show pyLower "auto" = "auto" from rfl, body_auto]
      rfl
  · refine ⟨?_, ?_⟩
    · show ppg_analyze_body _ _ (pyLower method) = _
      rw [body_event _ _ hm]
      rfl
    · show ppg_analyze_body _ _ (pyLower "auto") = _
      rw [show pyLower "auto" = "auto" from rfl, body_auto]
      rfl

/-- C2, counterexample: the empty mapping is a mapping input in which no
column name contains `"Label"`, yet event-related mode raises the
unbound-variable `NameError` for `colnames`, not the structural-mismatch
`ValueError` that names the function. -/
theorem C2_counterexample_empty_dict :
    ppg_analyze (.dict []) 1000 "event-related" =
      Except.error (.nameError "colnames") ∧
    ppg_analyze (.dict []) 1000 "event-related" ≠
      Except.error (.valueError errMsg) := by
  have h1 : ppg_analyze (.dict []) 1000 "event-related" =
      Except.error (.nameError "colnames") := rfl
  refine ⟨h1, ?_⟩
  rw [h1]
  simp

/-- C2, amended to the inputs on which the check actually runs: for a single
table, or a nonempty mapping, in which no column name contains `"Label"`, any
event-group method raises the structural-mismatch `ValueError` naming the
function, and neither extractor is invoked. -/
theorem C2_event_label_free (data : Data) (sr : ℚ) (method : String)
    (hm : pyLower method ∈ eventMethods) (hd : labelFree data = true) :
    ppg_analyze data sr method = Except.error (.valueError errMsg) := by
  show ppg_analyze_body data sr (pyLower method) = _
  rw [body_event data sr hm]
  cases data with
  | frame df =>
    simp only [labelFree, Bool.not_eq_true'] at hd
    rw [eventBranch_eq_of_colnames (colnamesOf_frame df),
      if_pos (filter_length_eq_zero hd)]
  | dict ms =>
    simp only [labelFree, Bool.and_eq_true, List.all_eq_true,
      Bool.not_eq_true'] at hd
    obtain ⟨hne, hall⟩ := hd
    have hne' : ms ≠ [] := by simpa using hne
    have hlast : ms.getLast? = some (ms.getLast hne') := List.getLast?_eq_getLast ms hne'
    rw [eventBranch_eq_of_colnames (colnamesOf_dict_last hlast),
      if_pos (filter_length_eq_zero (hall _ (List.getLast_mem hne')))]
  | other => simp [labelFree] at hd

/-- C1 witness: a concrete label-free table of two rows at 2 Hz. -/
theorem C1_auto_frame_without_label_witness :
    "Label" ∉ plainFrame.columns ∧ (0 : ℚ) < 2 ∧
    ppg_analyze (.frame plainFrame) 2 "auto" =
      (if ((plainFrame.rows.length : ℚ) / 2 ≥ 10) then
        Except.ok (.ppg_intervalrelated (.frame plainFrame) 2)
      else
        Except.ok (.ppg_eventrelated (.frame plainFrame))) :=
  ⟨by decide, by norm_num,
    C1_auto_frame_without_label plainFrame 2 (by decide) (by norm_num)⟩

/-- C2 witness for the amended claim: a concrete label-free table, with a
mixed-case event-group method. -/
theorem C2_event_label_free_witness :
    pyLower "Event-Related" ∈ eventMethods ∧
    labelFree (.frame plainFrame) = true ∧
    ppg_analyze (.frame plainFrame) 1000 "Event-Related" =
      Except.error (.valueError errMsg) :=
  ⟨by decide, by decide,
    C2_event_label_free (.frame plainFrame) 1000 "Event-Related" (by decide)
      (by decide)⟩

/-- C3 witness: a concrete table and a mixed-case interval-group method. -/
theorem C3_interval_delegates_witness :
    pyLower "Interval-Related" ∈ intervalMethods ∧
    ppg_analyze (.frame plainFrame) 100 "Interval-Related" =
      Except.ok (.ppg_intervalrelated (.frame plainFrame) 100) :=
  ⟨by decide,
    C3_interval_delegates (.frame plainFrame) 100 "Interval-Related" (by decide)⟩

/-- C4 witness: a concrete labeled table and an uppercase event-group
method. -/
theorem C4_event_with_label_witness :
    pyLower "EPOCH" ∈ eventMethods ∧
    epochedWithLabel (.frame labeledFrame) = true ∧
    ppg_analyze (.frame labeledFrame) 1000 "EPOCH" =
      Except.ok (.ppg_eventrelated (.frame labeledFrame)) :=
  ⟨by decide, by decide,
    C4_event_with_label (.frame labeledFrame) 1000 "EPOCH" (by decide)
      (by decide)⟩

/-- C5 witness for the amended claim: a concrete labeled table of three rows
at 1 Hz. -/
theorem C5_auto_frame_with_label_witness :
    "Label" ∈ labeledFrame.columns ∧ labeledFrame.rows ≠ [] ∧ (0 : ℚ) < 1 ∧
    ppg_analyze (.frame labeledFrame) 1 "auto" =
      (if ((value_counts_top (labeledFrame.col "Label") : ℚ) / 1 ≥ 10) then
        Except.ok (.ppg_intervalrelated (.frame labeledFrame) 1)
      else
        Except.ok (.ppg_eventrelated (.frame labeledFrame))) :=
  ⟨by decide, by decide, by norm_num,
    C5_auto_frame_with_label labeledFrame 1 (by decide) (by decide)
      (by norm_num)⟩

/-- C6 witness: a concrete two-member mapping whose last member decides. -/
theorem C6_auto_dict_last_member_witness :
    ([("1", labeledFrame), ("2", plainFrame)]
        : List (String × DataFrame)).getLast? = some ("2", plainFrame) ∧
    (0 : ℚ) < 100 ∧
    ppg_analyze (.dict [("1", labeledFrame), ("2", plainFrame)]) 100 "auto" =
      (if ((plainFrame.rows.length : ℚ) / 100 ≥ 10) then
        Except.ok
          (.ppg_intervalrelated (.dict [("1", labeledFrame), ("2", plainFrame)]) 100)
      else
        Except.ok
          (.ppg_eventrelated (.dict [("1", labeledFrame), ("2", plainFrame)]))) :=
  ⟨by decide, by norm_num,
    C6_auto_dict_last_member [("1", labeledFrame), ("2", plainFrame)]
      ("2", plainFrame) 100 (by decide) (by norm_num)⟩

/-- C7 witness: a concrete unrecognized method name. -/
theorem C7_unrecognized_method_witness :
    pyLower "median" ∉ eventMethods ∧
    pyLower "median" ∉ intervalMethods ∧
    pyLower "median" ≠ "auto" ∧
    ppg_analyze .other 1000 "median" = Except.error (.nameError "features") :=
  ⟨by decide, by decide, by decide,
    C7_unrecognized_method .other 1000 "median" (by decide) (by decide)
      (by decide)⟩

/-- C9 witness: a concrete mapping whose first member lacks the label marker
while its last member has it. -/
theorem C9_event_dict_checks_last_only_witness :
    ([("1", plainFrame), ("2", labeledFrame)]
        : List (String × DataFrame)).getLast? = some ("2", labeledFrame) ∧
    ppg_analyze (.dict [("1", plainFrame), ("2", labeledFrame)]) 1000
        "event-related" =
      (if hasLabelMarker labeledFrame.columns then
        Except.ok
          (.ppg_eventrelated (.dict [("1", plainFrame), ("2", labeledFrame)]))
      else
        Except.error (.valueError errMsg)) :=
  ⟨by decide,
    C9_event_dict_checks_last_only [("1", plainFrame), ("2", labeledFrame)]
      ("2", labeledFrame) 1000 (by decide)⟩

/-- C10 witness: the empty mapping with an event-group method and with
`"auto"`. -/
theorem C10_unbound_variable_witness :
    ((Data.dict [] : Data) = Data.dict [] ∨ (Data.dict [] : Data) = Data.other) ∧
    pyLower "event" ∈ eventMethods ∧
    (ppg_analyze (.dict []) 500 "event" = Except.error (.nameError "colnames") ∧
     ppg_analyze (.dict []) 500 "auto" =
       Except.error
         (.nameError
           (if (Data.dict [] : Data) = Data.other then "features" else "duration"))) :=
  ⟨Or.inl rfl, by decide,
    C10_unbound_variable (.dict []) 500 "event" (Or.inl rfl) (by decide)⟩

end NeuroKit
